import Mathlib

/-
Verification of the conversation/visualization orchestration layer and the
speech-input session logic of the nl2cypher-bot frontend.

The development shallowly embeds the relevant JavaScript/Vue code:

* `NL2C.Home`   — the Vue HomeView component (src/unnamed/part_002):
                  chat submit (`sendMessage`), speech recognized handler,
                  `stopSpeechRecognition`, `rerenderGraph`.
* `NL2C.Page`   — the static page scripts `src/static/js/chat.js`
                  (`handleChatSubmit`, `sendMessageToBackend`) together with
                  the visualization state of the static page
                  (`src/unnamed/part_000`, `visualizeGraph`).
* `NL2C.Speech` — `src/static/js/speech.js`: the `checkSdkLoaded` polling
                  loop with its 5-second give-up timer, the mock-SDK sentinel
                  (`window.FromMock`, defined by the mock script
                  src/unnamed/part_001), `startSpeechRecognition`,
                  `stopSpeechRecognition` and the recognized handler.
* `NL2C.NeoVis` — the NeoVisComponent (src/frontend/src/components/
                  NeoVisComponent.vue): `renderGraph`, `rerender`,
                  `createSimpleVisualization`.

Asynchronous functions are split into their synchronous prefix (up to the
await of the network call) and the continuation that runs when the call
settles; callback-style SDK calls are modelled by the state reached once the
success or error callback has fired.
-/

namespace NL2C

/-- JavaScript truthiness of a string: every string except the empty string
is truthy. -/
def strTruthy (s : String) : Bool := s != ""

/-- JavaScript `String.prototype.trim`: drop whitespace from both ends.
Implemented over the character list (rather than through `String.trim`,
whose auxiliary functions do not reduce inside the kernel) so that every
theorem below can be evaluated on concrete strings. -/
def jsTrim (s : String) : String :=
  String.mk (((s.data.dropWhile Char.isWhitespace).reverse.dropWhile Char.isWhitespace).reverse)

/-- JavaScript truthiness of a nullable string field (`null` and the empty
string are falsy). -/
def optStrTruthy : Option String → Bool
  | none => false
  | some s => s != ""

/-- JavaScript `a || b` on strings (used for `error.message || "Erreur
inconnue"`). -/
def jsOr (a b : String) : String := if a == "" then b else a

/-- Role of a chat message (`'user'` or `'assistant'`). -/
inductive Role where
  | user
  | assistant
deriving DecidableEq

/-- One chat message as appended by `addMessageToChat` (chat.js) or pushed
onto `chatMessages` (HomeView). -/
structure Msg where
  role : Role
  content : String
deriving DecidableEq

/-- Request body of `POST /api/chat`: `{ message, thread_id }`. -/
structure ChatRequest where
  message : String
  thread_id : Option String
deriving DecidableEq

/-- Response body of `POST /api/chat`:
`{ response, thread_id, cypher_query }`. -/
structure ChatResponse where
  response : String
  thread_id : String
  cypher_query : Option String
deriving DecidableEq

/-- Outcome of the awaited chat call: either the parsed response body, or a
rejection carrying `error.message` (an absent message is modelled by the
empty string, which is exactly what the `||` fallback in HomeView tests). -/
inductive ChatOutcome where
  | ok (resp : ChatResponse)
  | err (message : String)
deriving DecidableEq

namespace Home

/-- Reactive data of the HomeView component (src/unnamed/part_002,
`data()`), restricted to the fields read or written by the methods embedded
below.  `recognizer` records whether the speech-recognizer handle is
non-null; `lastResponseDebug` stores the response record whose JSON
rendering the component keeps. -/
structure HomeState where
  chatMessages : List Msg
  userInput : String
  isProcessing : Bool
  threadId : Option String
  hasVisualizedGraph : Bool
  currentCypherQuery : Option String
  lastResponseDebug : Option ChatResponse
  visualizationError : Option String
  isRecording : Bool
  speechEnabled : Bool
  recognizer : Bool
deriving DecidableEq

/-- Initial component data (`data()` in src/unnamed/part_002). -/
def homeInit : HomeState :=
  { chatMessages := []
    userInput := ""
    isProcessing := false
    threadId := none
    hasVisualizedGraph := false
    currentCypherQuery := none
    lastResponseDebug := none
    visualizationError := none
    isRecording := false
    speechEnabled := true
    recognizer := false }

/-- Synchronous prefix of `sendMessage` (src/unnamed/part_002, lines
234-265): the guard `!this.userInput.trim() || this.isProcessing`, clearing
the input, appending the user message, setting `isProcessing`, and issuing
the POST.  Returns the new state together with the request issued, if any. -/
def sendMessageStart (h : HomeState) : HomeState × Option ChatRequest :=
  if jsTrim h.userInput = "" ∨ h.isProcessing = true then (h, none)
  else
    let message := jsTrim h.userInput
    ({ h with
        userInput := ""
        chatMessages := h.chatMessages ++ [Msg.mk Role.user message]
        isProcessing := true },
     some (ChatRequest.mk message h.threadId))

/-- Continuation of `sendMessage` once the awaited `axios.post` settles
(src/unnamed/part_002, lines 266-309): the success branch appends the
assistant reply, adopts the returned thread id, stores the debug record and
forwards a truthy `cypher_query` to the visualization; the catch branch
appends an error message; the finally branch clears `isProcessing`. -/
def sendMessageFinish (h : HomeState) (r : ChatOutcome) : HomeState :=
  match r with
  | .ok resp =>
      let h := { h with
        chatMessages := h.chatMessages ++ [Msg.mk Role.assistant resp.response]
        threadId := some resp.thread_id
        lastResponseDebug := some resp }
      let h :=
        if optStrTruthy resp.cypher_query then
          { h with
              currentCypherQuery := resp.cypher_query
              hasVisualizedGraph := true
              visualizationError := none }
        else h
      { h with isProcessing := false }
  | .err m =>
      let h := { h with
        chatMessages := h.chatMessages ++
          [Msg.mk Role.assistant
            ("Désolé, j\x27ai rencontré une erreur: " ++ jsOr m "Erreur inconnue")] }
      { h with isProcessing := false }

end Home

/-- Reason attached to a speech-recognition result
(`sdk.ResultReason`). -/
inductive ResultReason where
  | recognizedSpeech
  | noMatch
  | other
deriving DecidableEq

/-- Appending a recognized utterance to the shared input buffer:
`userInput += (userInput ? ' ' : '') + text` (speech.js line 218 and
src/unnamed/part_002 line 411). -/
def appendRecognized (buf text : String) : String :=
  buf ++ (if strTruthy buf then " " else "") ++ text

/-- Vue recognized-speech handler (src/unnamed/part_002, lines 408-415):
append the raw result text when the reason is `RecognizedSpeech` and the
text has positive length. -/
def Home.recognizedHandler (h : Home.HomeState) (reason : ResultReason)
    (resultText : String) : Home.HomeState :=
  if reason = ResultReason.recognizedSpeech ∧ 0 < resultText.length then
    { h with userInput := appendRecognized h.userInput resultText }
  else h

namespace Page

/-- Module-level mutable state of the static page: `chatState` and the DOM
input/chat area from src/static/js/chat.js, together with the visualization
state `vizState` from src/unnamed/part_000 (`thinking` records whether the
transient thinking message element is present, `vizLastQuery` is
`vizState.lastQuery`). -/
structure PageState where
  threadId : Option String
  isProcessing : Bool
  userInput : String
  messages : List Msg
  thinking : Bool
  vizLastQuery : Option String
deriving DecidableEq

/-- Initial static-page state (`chatState` initializer and `vizState`
initializer). -/
def pageInit : PageState :=
  { threadId := none
    isProcessing := false
    userInput := ""
    messages := []
    thinking := false
    vizLastQuery := none }

/-- Whether a fetch `Response` counts as `ok`: status in the 2xx range. -/
def fetchOk (status : Nat) : Bool := 200 ≤ status && status ≤ 299

/-- Outcome of `sendMessageToBackend` (chat.js, lines 97-114), given the
HTTP status and the parsed body of the `/api/chat` response: a non-ok
status rejects with the message `API error: <status>`. -/
def sendMessageToBackendResult (status : Nat) (body : ChatResponse) : ChatOutcome :=
  if fetchOk status then ChatOutcome.ok body
  else ChatOutcome.err ("API error: " ++ toString status)

/-- Synchronous prefix of `handleChatSubmit` (chat.js, lines 41-64): the
guard `!message || chatState.isProcessing`, clearing the input, appending
the user message, setting `isProcessing`, adding the thinking placeholder,
and issuing the POST.  Returns the new state and the request issued, if
any. -/
def handleChatSubmitStart (s : PageState) : PageState × Option ChatRequest :=
  let message := jsTrim s.userInput
  if message = "" ∨ s.isProcessing = true then (s, none)
  else
    ({ s with
        userInput := ""
        messages := s.messages ++ [Msg.mk Role.user message]
        isProcessing := true
        thinking := true },
     some (ChatRequest.mk message s.threadId))

/-- Continuation of `handleChatSubmit` once `sendMessageToBackend` settles
(chat.js, lines 62-90): the try branch removes the placeholder, appends the
assistant reply, adopts the returned thread id, and forwards a truthy
`cypher_query` to `visualizeGraph` (src/unnamed/part_000, lines 157-178,
which stores it in `vizState.lastQuery`); the catch branch removes the
placeholder and appends an error message; the finally branch clears
`isProcessing`. -/
def handleChatSubmitFinish (s : PageState) (r : ChatOutcome) : PageState :=
  match r with
  | .ok resp =>
      let s := { s with
        thinking := false
        messages := s.messages ++ [Msg.mk Role.assistant resp.response]
        threadId := some resp.thread_id }
      let s :=
        if optStrTruthy resp.cypher_query then
          { s with vizLastQuery := resp.cypher_query }
        else s
      { s with isProcessing := false }
  | .err m =>
      let s := { s with
        thinking := false
        messages := s.messages ++
          [Msg.mk Role.assistant ("Sorry, I encountered an error: " ++ m)] }
      { s with isProcessing := false }

end Page

namespace Speech

/-- Status line shown when the microphone is idle and ready. -/
def clickMsg : String := "Cliquez sur le microphone pour parler"

/-- Static-page recognized-speech handler (speech.js, lines 212-221):
trim the result text and append it to the input buffer when the reason is
`RecognizedSpeech` and the trimmed text is truthy. -/
def recognizedHandler (buf : String) (reason : ResultReason)
    (resultText : String) : String :=
  if reason = ResultReason.recognizedSpeech then
    let text := jsTrim resultText
    if strTruthy text then appendRecognized buf text else buf
  else buf

/-- How the underlying `stopContinuousRecognitionAsync` call settles:
the success callback fires, the error callback fires, or the call itself
throws synchronously (the catch block of `stopSpeechRecognition`). -/
inductive StopOutcome where
  | success
  | callbackError
  | throwsSync
deriving DecidableEq

/-- Speech-related mutable state of the static page: `speechState` from
speech.js plus the mic-button CSS class and status line it drives
(`btnRecordingClass` is whether the button carries the `recording`
class). -/
structure SpeechUiState where
  isRecording : Bool
  recognizer : Bool
  btnRecordingClass : Bool
  statusText : String
deriving DecidableEq

/-- Terminal state of `stopSpeechRecognition` (speech.js, lines 246-271)
once the stop call has settled with the given outcome: the UI is reset
first; then, if a recognizer handle exists, it is nulled on the success
callback, on the error callback, and in the synchronous catch block
alike. -/
def stopSpeechRecognition (s : SpeechUiState) (o : StopOutcome) : SpeechUiState :=
  let s := { s with
    btnRecordingClass := false
    statusText := clickMsg
    isRecording := false }
  if s.recognizer then
    match o with
    | .success => { s with recognizer := false }
    | .callbackError => { s with recognizer := false }
    | .throwsSync => { s with recognizer := false }
  else s

/-- Status line shown by the polling loop while the SDK has not been
detected yet. -/
def loadingMsg : String := "Chargement du SDK..."

/-- Status line set by the give-up timer. -/
def failMsg : String := "SDK non disponible. Résolution vocale impossible."

/-- Duck-typed shape of a candidate speech SDK namespace: whether its
`SpeechConfig` member is an object and whether
`SpeechConfig.fromAuthorizationToken` is a function. -/
structure SdkShape where
  speechConfigIsObject : Bool
  fromAuthorizationTokenIsFunction : Bool
deriving DecidableEq

/-- The ambient globals the detection code probes:
`Microsoft.CognitiveServices.Speech` (if that chain is defined), the global
`SpeechSDK` object (if defined), and the sentinel `window.FromMock`. -/
structure Globals where
  microsoftSpeech : Option SdkShape
  speechSDK : Option SdkShape
  fromMock : Bool
deriving DecidableEq

/-- The `hasMicrosoftSDK` probe (speech.js, lines 25-29 and 153-157). -/
def hasMicrosoftSDK (g : Globals) : Bool :=
  match g.microsoftSpeech with
  | some sh => sh.speechConfigIsObject && sh.fromAuthorizationTokenIsFunction
  | none => false

/-- The `hasGlobalSDK` probe (speech.js, lines 31-33 and 159-161). -/
def hasGlobalSDK (g : Globals) : Bool :=
  match g.speechSDK with
  | some sh => sh.speechConfigIsObject && sh.fromAuthorizationTokenIsFunction
  | none => false

/-- The combined presence check used by `checkSdkLoaded`
(`hasMicrosoftSDK || hasGlobalSDK`, speech.js line 59). -/
def sdkDetected (g : Globals) : Bool := hasMicrosoftSDK g || hasGlobalSDK g

/-- Globals installed by the fallback mock script (src/unnamed/part_001):
`Microsoft.CognitiveServices.Speech` is populated with a `SpeechConfig`
object whose `fromAuthorizationToken` is a function, and
`window.FromMock = true` is set. -/
def mockGlobals : Globals :=
  { microsoftSpeech := some (SdkShape.mk true true)
    speechSDK := none
    fromMock := true }

/-- State of the SDK-detection machinery of speech.js: the current time in
milliseconds, the `speechState.sdkLoaded` flag, whether
`speechState.loadingTimeout` holds a (truthy) timer handle, the pending
fire times of the give-up timer and of the next scheduled
`checkSdkLoaded` call, the status line, the mic button's `disabled` flag
with a count of how many times it was disabled, the number of
`checkSdkLoaded` invocations so far, and whether the click listener has
been attached. -/
structure SdkState where
  now : Nat
  sdkLoaded : Bool
  timeoutHandleSet : Bool
  giveUpPending : Option Nat
  pollPending : Option Nat
  statusText : String
  btnDisabled : Bool
  disableCount : Nat
  checkCount : Nat
  listenerAdded : Bool
deriving DecidableEq

/-- One invocation of `checkSdkLoaded` (speech.js, lines 21-87) at the
current time, given whether the duck-typed presence check succeeds.  On
success the give-up timer is cleared and nulled, `sdkLoaded` is set, the
ready status is shown and the click listener attached — and no further
check is scheduled.  On failure the give-up timer is armed 5000ms out if
`loadingTimeout` is not already truthy (it stays truthy forever once set,
even after the timer fired), the loading status is shown, and the next
check is scheduled 500ms out. -/
def checkSdkLoaded (present : Bool) (s : SdkState) : SdkState :=
  let s := { s with checkCount := s.checkCount + 1 }
  if present then
    { s with
        giveUpPending := none
        timeoutHandleSet := false
        sdkLoaded := true
        statusText := Speech.clickMsg
        listenerAdded := true }
  else
    let s :=
      if s.timeoutHandleSet then s
      else { s with timeoutHandleSet := true, giveUpPending := some (s.now + 5000) }
    { s with statusText := loadingMsg, pollPending := some (s.now + 500) }

/-- The give-up timer callback (speech.js, lines 76-82): show the failure
status, disable the mic button, and count the disable.  The fired timer is
no longer pending, but `loadingTimeout` keeps its (truthy) handle. -/
def fireGiveUp (s : SdkState) : SdkState :=
  { s with
      statusText := failMsg
      btnDisabled := true
      disableCount := s.disableCount + 1
      giveUpPending := none }

/-- One scheduler step of the browser timer queue: fire whichever pending
timer is due first.  When both are due at the same instant the give-up
timer fires first, since it was registered before the poll that shares its
deadline (the give-up timer is armed by the first failing check, every
matching poll is armed at least 4500ms later). -/
def sdkStep (present : Nat → Bool) (s : SdkState) : SdkState :=
  match s.giveUpPending, s.pollPending with
  | some tg, some tp =>
      if tg ≤ tp then fireGiveUp { s with now := tg }
      else checkSdkLoaded (present tp) { s with now := tp, pollPending := none }
  | some tg, none => fireGiveUp { s with now := tg }
  | none, some tp => checkSdkLoaded (present tp) { s with now := tp, pollPending := none }
  | none, none => s

/-- State of the detection machinery before the first check. -/
def sdkInit : SdkState :=
  { now := 0
    sdkLoaded := false
    timeoutHandleSet := false
    giveUpPending := none
    pollPending := none
    statusText := ""
    btnDisabled := false
    disableCount := 0
    checkCount := 0
    listenerAdded := false }

/-- The detection machinery after the initial `checkSdkLoaded()` call from
the DOMContentLoaded handler followed by `n` timer firings, in an
environment where the presence check returns `present t` at time `t`. -/
def sdkRun (present : Nat → Bool) (n : Nat) : SdkState :=
  (sdkStep present)^[n] (checkSdkLoaded (present 0) sdkInit)

/-- An environment in which the SDK never becomes available. -/
def absent : Nat → Bool := fun _ => false

/-- Invariant of the never-available run: a poll is always pending, the
`loadingTimeout` handle is set, and the give-up timer either is still
pending with the button not yet disabled, or has fired exactly once. -/
def AbsentInv (s : SdkState) : Prop :=
  s.pollPending.isSome = true ∧ s.timeoutHandleSet = true ∧
    ((s.disableCount = 0 ∧ s.giveUpPending.isSome = true) ∨
     (s.disableCount = 1 ∧ s.giveUpPending = none))

theorem absentInv_start : AbsentInv (checkSdkLoaded (absent 0) sdkInit) := by
  refine ⟨?_, ?_, Or.inl ⟨?_, ?_⟩⟩ <;> rfl

theorem absentInv_step (s : SdkState) (h : AbsentInv s) :
    AbsentInv (sdkStep absent s) := by
  obtain ⟨hpoll, hto, hcases⟩ := h
  cases hg : s.giveUpPending with
  | some tg =>
      cases hp : s.pollPending with
      | none => rw [hp] at hpoll; simp at hpoll
      | some tp =>
          rcases hcases with ⟨hd, _⟩ | ⟨_, hnone⟩
          · by_cases hle : tg ≤ tp
            · refine ⟨?_, ?_, Or.inr ⟨?_, ?_⟩⟩ <;>
                simp [sdkStep, hg, hp, if_pos hle, fireGiveUp, hp ▸ hpoll, hto, hd]
            · refine ⟨?_, ?_, Or.inl ⟨?_, ?_⟩⟩ <;>
                simp [sdkStep, hg, hp, if_neg hle, checkSdkLoaded, absent, hto, hd, hg]
          · rw [hnone] at hg; cases hg
  | none =>
      cases hp : s.pollPending with
      | none => rw [hp] at hpoll; simp at hpoll
      | some tp =>
          rcases hcases with ⟨_, hsome⟩ | ⟨hd, _⟩
          · rw [hg] at hsome; simp at hsome
          · refine ⟨?_, ?_, Or.inr ⟨?_, ?_⟩⟩ <;>
              simp [sdkStep, hg, hp, checkSdkLoaded, absent, hto, hd]

theorem absentInv_run (n : Nat) : AbsentInv (sdkRun absent n) := by
  induction n with
  | zero => exact absentInv_start
  | succ n ih =>
      have h : sdkRun absent (n + 1) = sdkStep absent (sdkRun absent n) :=
        Function.iterate_succ_apply' (sdkStep absent) n _
      rw [h]
      exact absentInv_step _ ih

/-- Once the mic button is disabled no step ever re-enables it, and the
disable counter never decreases. -/
theorem sdkStep_mono (present : Nat → Bool) (s : SdkState) :
    s.disableCount ≤ (sdkStep present s).disableCount ∧
      (s.btnDisabled = true → (sdkStep present s).btnDisabled = true) := by
  cases hg : s.giveUpPending with
  | some tg =>
      cases hp : s.pollPending with
      | none => constructor <;> simp [sdkStep, hg, hp, fireGiveUp]
      | some tp =>
          by_cases hle : tg ≤ tp
          · constructor <;> simp [sdkStep, hg, hp, if_pos hle, fireGiveUp]
          · constructor <;>
              [skip; intro hb] <;>
              by_cases hpres : present tp = true <;>
              by_cases hts : s.timeoutHandleSet = true <;>
              simp_all [sdkStep, hg, hp, if_neg hle, checkSdkLoaded]
  | none =>
      cases hp : s.pollPending with
      | none => constructor <;> simp [sdkStep, hg, hp]
      | some tp =>
          constructor <;>
            [skip; intro hb] <;>
            by_cases hpres : present tp = true <;>
            by_cases hts : s.timeoutHandleSet = true <;>
            simp_all [sdkStep, hg, hp, checkSdkLoaded]

/-- Disable-count monotonicity over the never-available run. -/
theorem sdkRun_disableCount_mono (n : Nat) :
    (sdkRun absent n).disableCount ≤ (sdkRun absent (n + 1)).disableCount := by
  have h : sdkRun absent (n + 1) = sdkStep absent (sdkRun absent n) :=
    Function.iterate_succ_apply' (sdkStep absent) n _
  rw [h]
  exact (sdkStep_mono absent (sdkRun absent n)).1

/-- Disabled-flag monotonicity over the never-available run. -/
theorem sdkRun_btnDisabled_mono (n : Nat)
    (h : (sdkRun absent n).btnDisabled = true) :
    (sdkRun absent (n + 1)).btnDisabled = true := by
  have he : sdkRun absent (n + 1) = sdkStep absent (sdkRun absent n) :=
    Function.iterate_succ_apply' (sdkStep absent) n _
  rw [he]
  exact (sdkStep_mono absent (sdkRun absent n)).2 h

/-- How `startSpeechRecognition` (speech.js, lines 144-241) classifies the
environment before any capture is attempted: the sentinel check
`window.FromMock === true` throws first; a failed duck-typed presence
check throws next; otherwise a recognizer is created against the Microsoft
namespace if available, else against the global `SpeechSDK`. -/
inductive StartOutcome where
  | mockDetected
  | sdkMissing
  | started (usedMicrosoftNamespace : Bool)
deriving DecidableEq

/-- Classification performed by `startSpeechRecognition` (speech.js, lines
144-241) on the ambient globals. -/
def startSpeechRecognition (g : Globals) : StartOutcome :=
  if g.fromMock then StartOutcome.mockDetected
  else if hasMicrosoftSDK g || hasGlobalSDK g then
    StartOutcome.started (hasMicrosoftSDK g)
  else StartOutcome.sdkMissing

/-- Whether `startSpeechRecognition` reaches the point where
`speechState.recognizer` is created (speech.js, line 209); both throw
paths are caught before that line. -/
def recognizerCreated (g : Globals) : Bool :=
  match startSpeechRecognition g with
  | .started _ => true
  | _ => false

/-- The mic control as the mock script's own DOMContentLoaded handler sees
it. -/
structure MicControl where
  disabled : Bool
  title : String
  statusText : String
deriving DecidableEq

/-- DOMContentLoaded handler of the mock script (src/unnamed/part_001,
lines 38-50): it disables the mic button and shows an unavailability
status. -/
def mockDomLoaded (u : MicControl) : MicControl :=
  { disabled := true
    title := "Speech SDK failed to load"
    statusText := "Speech recognition unavailable" }

end Speech

/-- Vue `stopSpeechRecognition` (src/unnamed/part_002, lines 429-441) in
its terminal state: `isRecording` is cleared, and if a recognizer exists it
is nulled both by the success callback and by the error callback
(`stopErrored` selects which of the two fired; both null the handle). -/
def Home.stopSpeechRecognition (h : Home.HomeState) (stopErrored : Bool) :
    Home.HomeState :=
  let h := { h with isRecording := false }
  if h.recognizer then { h with recognizer := false } else h

namespace NeoVis

/-- Error message set by `renderGraph` when its `query` prop is empty. -/
def noQueryMsg : String := "No query provided"

/-- Reactive state of NeoVisComponent (NeoVisComponent.vue): the `query`
prop, the `loading`/`error`/`debugInfo` data fields, whether the
`vizContainer` element is attached, the textual content the fallback
renderer wrote into the container (`rendered`), and counters for the
`visualization-completed` and `visualization-error` emits. -/
structure NeoVisState where
  query : String
  loading : Bool
  error : Option String
  debugSet : Bool
  containerAttached : Bool
  rendered : Option String
  completedEmits : Nat
  errorEmits : Nat
deriving DecidableEq

/-- The fallback renderer `createSimpleVisualization` (NeoVisComponent.vue,
lines 60-84): when the container ref exists it writes a textual
presentation of the query into it, clears `loading`, emits
`visualization-completed` and returns `true`; otherwise it returns
undefined (falsy). -/
def createSimpleVisualization (s : NeoVisState) : NeoVisState × Bool :=
  if s.containerAttached then
    ({ s with
        rendered := some s.query
        loading := false
        completedEmits := s.completedEmits + 1 }, true)
  else (s, false)

/-- The component method `renderGraph` (NeoVisComponent.vue, lines 86-132),
with the `$nextTick` body inlined: an empty query only sets the error
message; otherwise the loading state is entered, prior error/debug state is
reset, debug info is recorded, and the fallback renderer runs, any thrown
error being caught into the error state with a `visualization-error`
emit. -/
def renderGraph (s : NeoVisState) : NeoVisState :=
  if s.query = "" then { s with error := some noQueryMsg }
  else
    let s := { s with loading := true, error := none, debugSet := false }
    let s := { s with debugSet := true }
    if s.containerAttached then
      let p := createSimpleVisualization s
      if p.2 then p.1
      else
        { p.1 with
            error := some "Error rendering graph: Failed to create visualization"
            loading := false
            errorEmits := p.1.errorEmits + 1 }
    else
      { s with
          error := some "Error rendering graph: Visualization container element not found"
          loading := false
          errorEmits := s.errorEmits + 1 }

/-- The component method `rerender` (NeoVisComponent.vue, lines 134-136):
it simply calls `renderGraph` again with the current (last-used) query. -/
def rerender (s : NeoVisState) : NeoVisState := renderGraph s

end NeoVis

/-- The HomeView method `rerenderGraph` (src/unnamed/part_002, lines
333-337): `this.$refs.neovis` exists exactly when the template mounts the
component, i.e. when `hasVisualizedGraph && currentCypherQuery` is truthy
(line 90); if so it calls `rerender` on the component, otherwise nothing
happens. -/
def Home.rerenderGraph (h : Home.HomeState) (nv : NeoVis.NeoVisState) :
    NeoVis.NeoVisState :=
  if h.hasVisualizedGraph = true ∧ optStrTruthy h.currentCypherQuery = true then
    NeoVis.rerender nv
  else nv

namespace Home

/-- Events driving the chat part of HomeView: the user edits the input
field (`v-model`), the form submit event fires, or the in-flight backend
call settles. -/
inductive ChatEv where
  | typed (raw : String)
  | submit
  | resolve (r : ChatOutcome)

/-- The component state together with the list of chat requests currently
in flight on the network. -/
structure ChatSys where
  st : HomeState
  pending : List ChatRequest
deriving DecidableEq

/-- Initial system: fresh component data, nothing in flight. -/
def chatInit : ChatSys := ⟨homeInit, []⟩

/-- One event step: typing replaces the input buffer; a submit runs the
synchronous prefix of `sendMessage` and records the request it issued, if
any; a settling call runs the continuation and leaves the in-flight
list's tail. -/
def chatStep (c : ChatSys) : ChatEv → ChatSys
  | .typed raw => { c with st := { c.st with userInput := raw } }
  | .submit =>
      let p := sendMessageStart c.st
      { st := p.1, pending := c.pending ++ p.2.toList }
  | .resolve r =>
      match c.pending with
      | [] => c
      | _ :: rest => { st := sendMessageFinish c.st r, pending := rest }

/-- Run a sequence of events from a given system state. -/
def chatSteps (c : ChatSys) (evs : List ChatEv) : ChatSys :=
  evs.foldl chatStep c

/-- Run a sequence of events from the initial system state. -/
def chatRun (evs : List ChatEv) : ChatSys := chatSteps chatInit evs

/-- System invariant tying the in-flight list to the `isProcessing` flag,
and recording that every in-flight request carries the thread id the
component currently stores (nothing mutates `threadId` while a call is in
flight). -/
def GoodSys (c : ChatSys) : Prop :=
  c.pending.length = (if c.st.isProcessing then 1 else 0) ∧
  ∀ req ∈ c.pending, req.thread_id = c.st.threadId

/-- Modelled from the spec: the chat backend (the Python service of this
repository, not included under src/) assigns a thread id on the first call
and, per §3 of the spec, the id "is reused on all subsequent calls in the
session" — a response to a request that carried a thread id returns that
same id.  `echoOK c ev` states this for the event `ev` fired in system
state `c`. -/
def echoOK (c : ChatSys) : ChatEv → Prop
  | .resolve (.ok resp) =>
      ∀ req, c.pending.head? = some req →
        ∀ t, req.thread_id = some t → resp.thread_id = t
  | _ => True

/-- A trace along which every resolved response respects the backend
thread-id contract of `echoOK`. -/
def EchoTrace (c : ChatSys) : List ChatEv → Prop
  | [] => True
  | ev :: evs => echoOK c ev ∧ EchoTrace (chatStep c ev) evs

theorem goodSys_init : GoodSys chatInit := by
  constructor
  · rfl
  · intro req h
    simp [chatInit] at h

theorem goodSys_step (c : ChatSys) (ev : ChatEv) (hg : GoodSys c) :
    GoodSys (chatStep c ev) := by
  obtain ⟨hlen, hreq⟩ := hg
  cases ev with
  | typed raw =>
      refine ⟨by simpa [chatStep] using hlen, ?_⟩
      intro req h
      simpa [chatStep] using hreq req h
  | submit =>
      by_cases hguard : jsTrim c.st.userInput = "" ∨ c.st.isProcessing = true
      · refine ⟨?_, ?_⟩
        · simpa [chatStep, sendMessageStart, hguard] using hlen
        · intro req h
          simp only [chatStep, sendMessageStart, if_pos hguard] at h ⊢
          simpa using hreq req (by simpa using h)
      · have hproc : c.st.isProcessing = false := by
          rcases Bool.eq_false_or_eq_true c.st.isProcessing with h | h
          · exact absurd (Or.inr h) hguard
          · exact h
        have hnil : c.pending = [] := by
          rw [hproc] at hlen
          simp only [if_neg (by simp : ¬ (false = true))] at hlen
          exact List.length_eq_zero.mp hlen
        refine ⟨?_, ?_⟩
        · simp [chatStep, sendMessageStart, if_neg hguard, hnil]
        · intro req h
          simp only [chatStep, sendMessageStart, if_neg hguard, hnil,
            List.nil_append, Option.toList_some, List.mem_singleton] at h
          subst h
          simp [chatStep, sendMessageStart, if_neg hguard]
  | resolve r =>
      cases hp : c.pending with
      | nil =>
          rw [hp] at hlen hreq
          refine ⟨?_, ?_⟩
          · simpa [chatStep, hp] using hlen
          · intro req h
            simp [chatStep, hp] at h
      | cons req₀ rest =>
          have hproc : c.st.isProcessing = true := by
            rcases Bool.eq_false_or_eq_true c.st.isProcessing with h | h
            · exact h
            · rw [h, hp] at hlen
              simp at hlen
          have hrest : rest = [] := by
            rw [hproc, hp] at hlen
            simpa using hlen
          refine ⟨?_, ?_⟩
          · simp only [chatStep, hp, hrest]
            cases r with
            | ok resp =>
                by_cases hcf : optStrTruthy resp.cypher_query = true
                · simp [sendMessageFinish, hcf]
                · simp [sendMessageFinish, hcf]
            | err m => simp [sendMessageFinish]
          · intro req h
            simp [chatStep, hp, hrest] at h

/-- The in-flight flag tracks outstanding requests, hence at most one chat
request is in flight after any event sequence. -/
theorem goodSys_run (evs : List ChatEv) : GoodSys (chatRun evs) := by
  suffices h : ∀ c, GoodSys c → GoodSys (chatSteps c evs) from
    h chatInit goodSys_init
  induction evs with
  | nil => intro c hc; exact hc
  | cons ev evs ih =>
      intro c hc
      exact ih (chatStep c ev) (goodSys_step c ev hc)

theorem pinned_step (c : ChatSys) (ev : ChatEv) (t : String)
    (hg : GoodSys c) (he : echoOK c ev) (ht : c.st.threadId = some t) :
    (chatStep c ev).st.threadId = some t := by
  cases ev with
  | typed raw => simpa [chatStep]
  | submit =>
      by_cases hguard : jsTrim c.st.userInput = "" ∨ c.st.isProcessing = true
      · simpa [chatStep, sendMessageStart, if_pos hguard]
      · simpa [chatStep, sendMessageStart, if_neg hguard]
  | resolve r =>
      cases hp : c.pending with
      | nil => simpa [chatStep, hp]
      | cons req₀ rest =>
          cases r with
          | ok resp =>
              have hreq : req₀.thread_id = c.st.threadId := hg.2 req₀ (by simp [hp])
              have : resp.thread_id = t := by
                refine he req₀ (by simp [hp]) t ?_
                rw [hreq, ht]
              by_cases hcf : optStrTruthy resp.cypher_query = true
              · simp [chatStep, hp, sendMessageFinish, hcf, this]
              · simp [chatStep, hp, sendMessageFinish, hcf, this]
          | err m => simpa [chatStep, hp, sendMessageFinish]

/-- Once the stored thread id is pinned to `t`, an echo-respecting trace
never moves it. -/
theorem pinned_steps (evs : List ChatEv) :
    ∀ c t, GoodSys c → EchoTrace c evs → c.st.threadId = some t →
      (chatSteps c evs).st.threadId = some t := by
  induction evs with
  | nil => intro c t _ _ ht; exact ht
  | cons ev evs ih =>
      intro c t hg he ht
      exact ih (chatStep c ev) t (goodSys_step c ev hg) he.2
        (pinned_step c ev t hg he.1 ht)

/-- Splitting an echo-respecting trace at a prefix. -/
theorem echoTrace_append (evs evs' : List ChatEv) :
    ∀ c, EchoTrace c (evs ++ evs') →
      EchoTrace c evs ∧ EchoTrace (chatSteps c evs) evs' := by
  induction evs with
  | nil => intro c h; exact ⟨trivial, h⟩
  | cons ev evs ih =>
      intro c h
      obtain ⟨h1, h2⟩ := h
      obtain ⟨ha, hb⟩ := ih (chatStep c ev) h2
      exact ⟨⟨h1, ha⟩, hb⟩

end Home

end NL2C


namespace NL2C

/-- After the give-up timer has fired (which happens at scheduler step 10
of the never-available run) the mic button stays disabled and the disable
count stays at one. -/
theorem sdkRun_disabled_from_ten (k : Nat) :
    (Speech.sdkRun Speech.absent (10 + k)).btnDisabled = true ∧
      (Speech.sdkRun Speech.absent (10 + k)).disableCount = 1 := by
  induction k with
  | zero => exact ⟨by decide, by decide⟩
  | succ k ih =>
      constructor
      · show (Speech.sdkRun Speech.absent (10 + k + 1)).btnDisabled = true
        exact Speech.sdkRun_btnDisabled_mono _ ih.1
      · show (Speech.sdkRun Speech.absent (10 + k + 1)).disableCount = 1
        have hmono := Speech.sdkRun_disableCount_mono (10 + k)
        rw [ih.2] at hmono
        rcases (Speech.absentInv_run (10 + k + 1)).2.2 with ⟨h0, _⟩ | ⟨h1, _⟩
        · omega
        · exact h1

/-- C1: for every sequence of submit/typing/settle events at most one
backend chat call is ever outstanding; `submit` with a trimmed-empty input
or while a call is in flight leaves the state exactly unchanged and issues
no request (a no-op, not an error); whenever a request is issued the
in-flight flag is already set, and every completion path — success or
failure — clears it.  Stated for the Vue HomeView `sendMessage` (with its
event-trace semantics) and for the static-page `handleChatSubmit`. -/
theorem claim_C1_single_flight :
    (∀ evs : List Home.ChatEv, (Home.chatRun evs).pending.length ≤ 1) ∧
    (∀ h : Home.HomeState, jsTrim h.userInput = "" ∨ h.isProcessing = true →
      Home.sendMessageStart h = (h, none)) ∧
    (∀ h req, (Home.sendMessageStart h).2 = some req →
      (Home.sendMessageStart h).1.isProcessing = true) ∧
    (∀ h r, (Home.sendMessageFinish h r).isProcessing = false) ∧
    (∀ s : Page.PageState, jsTrim s.userInput = "" ∨ s.isProcessing = true →
      Page.handleChatSubmitStart s = (s, none)) ∧
    (∀ s req, (Page.handleChatSubmitStart s).2 = some req →
      (Page.handleChatSubmitStart s).1.isProcessing = true) ∧
    (∀ s r, (Page.handleChatSubmitFinish s r).isProcessing = false) := by
  refine ⟨?_, ?_, ?_, ?_, ?_, ?_, ?_⟩
  · intro evs
    have h := (Home.goodSys_run evs).1
    rw [h]
    split <;> simp
  · intro h hg
    simp [Home.sendMessageStart, if_pos hg]
  · intro h req hreq
    by_cases hg : jsTrim h.userInput = "" ∨ h.isProcessing = true
    · simp [Home.sendMessageStart, if_pos hg] at hreq
    · simp [Home.sendMessageStart, if_neg hg]
  · intro h r
    cases r with
    | ok resp =>
        by_cases hcf : optStrTruthy resp.cypher_query = true <;>
          simp [Home.sendMessageFinish, hcf]
    | err m => simp [Home.sendMessageFinish]
  · intro s hg
    simp [Page.handleChatSubmitStart, if_pos hg]
  · intro s req hreq
    by_cases hg : jsTrim s.userInput = "" ∨ s.isProcessing = true
    · simp [Page.handleChatSubmitStart, if_pos hg] at hreq
    · simp [Page.handleChatSubmitStart, if_neg hg]
  · intro s r
    cases r with
    | ok resp =>
        by_cases hcf : optStrTruthy resp.cypher_query = true <;>
          simp [Page.handleChatSubmitFinish, hcf]
    | err m => simp [Page.handleChatSubmitFinish]

/-- Witness for C1 at concrete inputs: a double submit of `bonjour` leaves
at most one call outstanding; a whitespace-only submit and a submit during
flight are no-ops; issuing sets the flag; both completion paths clear
it. -/
theorem claim_C1_single_flight_witness :
    (Home.chatRun [Home.ChatEv.typed "bonjour", Home.ChatEv.submit,
        Home.ChatEv.submit]).pending.length ≤ 1 ∧
    Home.sendMessageStart { Home.homeInit with userInput := "   " } =
      ({ Home.homeInit with userInput := "   " }, none) ∧
    (Home.sendMessageStart { Home.homeInit with userInput := "salut" }).1.isProcessing = true ∧
    (Home.sendMessageFinish Home.homeInit (ChatOutcome.err "boom")).isProcessing = false ∧
    Page.handleChatSubmitStart { Page.pageInit with userInput := "salut", isProcessing := true } =
      ({ Page.pageInit with userInput := "salut", isProcessing := true }, none) ∧
    (Page.handleChatSubmitStart { Page.pageInit with userInput := "salut" }).1.isProcessing = true ∧
    (Page.handleChatSubmitFinish Page.pageInit
      (ChatOutcome.ok (ChatResponse.mk "ok" "t1" none))).isProcessing = false := by
  obtain ⟨h1, h2, h3, h4, h5, h6, h7⟩ := claim_C1_single_flight
  exact ⟨h1 _,
    h2 _ (Or.inl (by decide)),
    h3 _ (ChatRequest.mk "salut" none) (by decide),
    h4 _ _,
    h5 _ (Or.inr (by decide)),
    h6 _ (ChatRequest.mk "salut" none) (by decide),
    h7 _ _⟩

/-- C3: when the chat call fails, both clients remove the thinking
placeholder, append exactly one assistant message embedding the failure
reason, leave the thread id and the visualization state untouched (the
full-state equations below change no other field), and clear the in-flight
flag; the static page maps every non-2xx HTTP status to such a failure
with reason `API error: <status>`. -/
theorem claim_C3_failure_path :
    (∀ h m, Home.sendMessageFinish h (ChatOutcome.err m) =
      { h with
          chatMessages := h.chatMessages ++
            [Msg.mk Role.assistant
              ("Désolé, j\x27ai rencontré une erreur: " ++ jsOr m "Erreur inconnue")]
          isProcessing := false }) ∧
    (∀ s m, Page.handleChatSubmitFinish s (ChatOutcome.err m) =
      { s with
          thinking := false
          messages := s.messages ++
            [Msg.mk Role.assistant ("Sorry, I encountered an error: " ++ m)]
          isProcessing := false }) ∧
    (∀ status body, Page.fetchOk status = false →
      Page.sendMessageToBackendResult status body =
        ChatOutcome.err ("API error: " ++ toString status)) := by
  refine ⟨?_, ?_, ?_⟩
  · intro h m; rfl
  · intro s m; rfl
  · intro status body hok
    simp [Page.sendMessageToBackendResult, hok]

/-- Witness for C3 at an HTTP 500 rejection. -/
theorem claim_C3_failure_path_witness :
    Home.sendMessageFinish Home.homeInit (ChatOutcome.err "Request failed with status code 500") =
      { Home.homeInit with
          chatMessages :=
            [Msg.mk Role.assistant
              "Désolé, j\x27ai rencontré une erreur: Request failed with status code 500"]
          isProcessing := false } ∧
    Page.handleChatSubmitFinish Page.pageInit (ChatOutcome.err "API error: 500") =
      { Page.pageInit with
          thinking := false
          messages := [Msg.mk Role.assistant "Sorry, I encountered an error: API error: 500"]
          isProcessing := false } ∧
    Page.sendMessageToBackendResult 500 (ChatResponse.mk "" "" none) =
      ChatOutcome.err "API error: 500" := by
  obtain ⟨h1, h2, h3⟩ := claim_C3_failure_path
  refine ⟨?_, ?_, h3 500 (ChatResponse.mk "" "" none) (by decide)⟩
  · have := h1 Home.homeInit "Request failed with status code 500"
    simpa using this
  · have := h2 Page.pageInit "API error: 500"
    simpa using this

end NL2C

namespace NL2C

/-- C2: after a successful chat turn the stored thread id equals the
backend-returned `thread_id`; a failed turn leaves it unchanged; and over
any event trace whose resolved responses respect the (spec-modelled)
backend contract of `Home.echoOK` — the backend returns the thread id the
request carried — a thread id, once set, is never switched to a different
one. -/
theorem claim_C2_thread_pinning :
    (∀ h resp, (Home.sendMessageFinish h (ChatOutcome.ok resp)).threadId =
      some resp.thread_id) ∧
    (∀ h m, (Home.sendMessageFinish h (ChatOutcome.err m)).threadId = h.threadId) ∧
    (∀ s resp, (Page.handleChatSubmitFinish s (ChatOutcome.ok resp)).threadId =
      some resp.thread_id) ∧
    (∀ s m, (Page.handleChatSubmitFinish s (ChatOutcome.err m)).threadId = s.threadId) ∧
    (∀ evs evs' t, Home.EchoTrace Home.chatInit (evs ++ evs') →
      (Home.chatRun evs).st.threadId = some t →
      (Home.chatRun (evs ++ evs')).st.threadId = some t) := by
  refine ⟨?_, ?_, ?_, ?_, ?_⟩
  · intro h resp
    by_cases hcf : optStrTruthy resp.cypher_query = true <;>
      simp [Home.sendMessageFinish, hcf]
  · intro h m; rfl
  · intro s resp
    by_cases hcf : optStrTruthy resp.cypher_query = true <;>
      simp [Page.handleChatSubmitFinish, hcf]
  · intro s m; rfl
  · intro evs evs' t he ht
    obtain ⟨h1, h2⟩ := Home.echoTrace_append evs evs' Home.chatInit he
    have hrun : Home.chatRun (evs ++ evs') = Home.chatSteps (Home.chatRun evs) evs' := by
      simp [Home.chatRun, Home.chatSteps, List.foldl_append]
    rw [hrun]
    exact Home.pinned_steps evs' (Home.chatRun evs) t (Home.goodSys_run evs) h2 ht

/-- Witness for C2: a successful turn pins the id to `t1`; a later failed
turn on an echo-respecting trace leaves it at `t1`. -/
theorem claim_C2_thread_pinning_witness :
    (Home.sendMessageFinish Home.homeInit
      (ChatOutcome.ok (ChatResponse.mk "bonjour" "t1" none))).threadId = some "t1" ∧
    (Home.sendMessageFinish Home.homeInit (ChatOutcome.err "boom")).threadId = none ∧
    (Page.handleChatSubmitFinish Page.pageInit
      (ChatOutcome.ok (ChatResponse.mk "bonjour" "t1" none))).threadId = some "t1" ∧
    (Page.handleChatSubmitFinish Page.pageInit (ChatOutcome.err "boom")).threadId = none ∧
    (Home.chatRun ([Home.ChatEv.typed "salut", Home.ChatEv.submit,
        Home.ChatEv.resolve (ChatOutcome.ok (ChatResponse.mk "bonjour" "t1" none))] ++
       [Home.ChatEv.typed "encore", Home.ChatEv.submit,
        Home.ChatEv.resolve (ChatOutcome.err "boom")])).st.threadId = some "t1" := by
  obtain ⟨h1, h2, h3, h4, h5⟩ := claim_C2_thread_pinning
  refine ⟨h1 _ _, h2 _ _, h3 _ _, h4 _ _, h5 _ _ "t1" ?_ (by decide)⟩
  refine ⟨trivial, trivial, ?_, trivial, trivial, trivial, trivial⟩
  intro req hreq t hth
  have hh : (Home.chatStep (Home.chatStep Home.chatInit
      (Home.ChatEv.typed "salut")) Home.ChatEv.submit).pending.head? =
      some (ChatRequest.mk "salut" none) := by decide
  rw [hh] at hreq
  cases Option.some.inj hreq
  simp at hth

end NL2C

namespace NL2C

/-- C4: on a successful chat response, exactly when `cypher_query` is a
non-empty string the HomeView forwards it — `currentCypherQuery` becomes
that very string, the component is mounted (`hasVisualizedGraph`) and the
prior visualization error is cleared — and the static page stores it as
`vizState.lastQuery`; when `cypher_query` is null or empty, every
visualization field keeps its prior value in both clients. -/
theorem claim_C4_cypher_forwarding :
    (∀ h resp, optStrTruthy resp.cypher_query = true →
      (Home.sendMessageFinish h (ChatOutcome.ok resp)).currentCypherQuery =
          resp.cypher_query ∧
        (Home.sendMessageFinish h (ChatOutcome.ok resp)).hasVisualizedGraph = true ∧
        (Home.sendMessageFinish h (ChatOutcome.ok resp)).visualizationError = none) ∧
    (∀ h resp, optStrTruthy resp.cypher_query = false →
      (Home.sendMessageFinish h (ChatOutcome.ok resp)).currentCypherQuery =
          h.currentCypherQuery ∧
        (Home.sendMessageFinish h (ChatOutcome.ok resp)).hasVisualizedGraph =
          h.hasVisualizedGraph ∧
        (Home.sendMessageFinish h (ChatOutcome.ok resp)).visualizationError =
          h.visualizationError) ∧
    (∀ s resp, optStrTruthy resp.cypher_query = true →
      (Page.handleChatSubmitFinish s (ChatOutcome.ok resp)).vizLastQuery =
        resp.cypher_query) ∧
    (∀ s resp, optStrTruthy resp.cypher_query = false →
      (Page.handleChatSubmitFinish s (ChatOutcome.ok resp)).vizLastQuery =
        s.vizLastQuery) := by
  refine ⟨?_, ?_, ?_, ?_⟩
  · intro h resp hcf
    refine ⟨?_, ?_, ?_⟩ <;> simp [Home.sendMessageFinish, hcf]
  · intro h resp hcf
    refine ⟨?_, ?_, ?_⟩ <;> simp [Home.sendMessageFinish, hcf]
  · intro s resp hcf
    simp [Page.handleChatSubmitFinish, hcf]
  · intro s resp hcf
    simp [Page.handleChatSubmitFinish, hcf]

/-- Witness for C4: a response carrying `MATCH (n) RETURN n LIMIT 10` is
forwarded verbatim and clears a prior error; a response with a null query
leaves a prior query, mount flag and error untouched. -/
theorem claim_C4_cypher_forwarding_witness :
    ((Home.sendMessageFinish
        { Home.homeInit with visualizationError := some "ancienne erreur" }
        (ChatOutcome.ok (ChatResponse.mk "ok" "t1"
          (some "MATCH (n) RETURN n LIMIT 10")))).currentCypherQuery =
        some "MATCH (n) RETURN n LIMIT 10" ∧
      (Home.sendMessageFinish
        { Home.homeInit with visualizationError := some "ancienne erreur" }
        (ChatOutcome.ok (ChatResponse.mk "ok" "t1"
          (some "MATCH (n) RETURN n LIMIT 10")))).hasVisualizedGraph = true ∧
      (Home.sendMessageFinish
        { Home.homeInit with visualizationError := some "ancienne erreur" }
        (ChatOutcome.ok (ChatResponse.mk "ok" "t1"
          (some "MATCH (n) RETURN n LIMIT 10")))).visualizationError = none) ∧
    ((Home.sendMessageFinish
        { Home.homeInit with
            currentCypherQuery := some "MATCH (m) RETURN m"
            hasVisualizedGraph := true
            visualizationError := some "ancienne erreur" }
        (ChatOutcome.ok (ChatResponse.mk "ok" "t2" none))).currentCypherQuery =
        some "MATCH (m) RETURN m" ∧
      (Home.sendMessageFinish
        { Home.homeInit with
            currentCypherQuery := some "MATCH (m) RETURN m"
            hasVisualizedGraph := true
            visualizationError := some "ancienne erreur" }
        (ChatOutcome.ok (ChatResponse.mk "ok" "t2" none))).hasVisualizedGraph = true ∧
      (Home.sendMessageFinish
        { Home.homeInit with
            currentCypherQuery := some "MATCH (m) RETURN m"
            hasVisualizedGraph := true
            visualizationError := some "ancienne erreur" }
        (ChatOutcome.ok (ChatResponse.mk "ok" "t2" none))).visualizationError =
        some "ancienne erreur") ∧
    (Page.handleChatSubmitFinish Page.pageInit
      (ChatOutcome.ok (ChatResponse.mk "ok" "t1"
        (some "MATCH (n) RETURN n LIMIT 10")))).vizLastQuery =
      some "MATCH (n) RETURN n LIMIT 10" ∧
    (Page.handleChatSubmitFinish
      { Page.pageInit with vizLastQuery := some "MATCH (m) RETURN m" }
      (ChatOutcome.ok (ChatResponse.mk "ok" "t1" none))).vizLastQuery =
      some "MATCH (m) RETURN m" := by
  obtain ⟨h1, h2, h3, h4⟩ := claim_C4_cypher_forwarding
  exact ⟨h1 _ _ (by decide), h2 _ _ (by decide), h3 _ _ (by decide), h4 _ _ (by decide)⟩

/-- C5: every recognized utterance with non-empty text is appended to the
shared input buffer, never overwriting it: a non-empty buffer gets exactly
one separating space before the new text, an empty buffer receives the
text with no leading space, and delivering `bonjour` then `monde` on an
empty buffer yields `bonjour monde` in both clients. -/
theorem claim_C5_append_recognized :
    (∀ h t, h.userInput ≠ "" → 0 < t.length →
      (Home.recognizedHandler h ResultReason.recognizedSpeech t).userInput =
        h.userInput ++ " " ++ t) ∧
    (∀ h t, h.userInput = "" → 0 < t.length →
      (Home.recognizedHandler h ResultReason.recognizedSpeech t).userInput = t) ∧
    (∀ buf t, buf ≠ "" → strTruthy (jsTrim t) = true →
      Speech.recognizedHandler buf ResultReason.recognizedSpeech t =
        buf ++ " " ++ jsTrim t) ∧
    (∀ t, strTruthy (jsTrim t) = true →
      Speech.recognizedHandler "" ResultReason.recognizedSpeech t = jsTrim t) ∧
    (Home.recognizedHandler
      (Home.recognizedHandler Home.homeInit ResultReason.recognizedSpeech "bonjour")
      ResultReason.recognizedSpeech "monde").userInput = "bonjour monde" ∧
    Speech.recognizedHandler
      (Speech.recognizedHandler "" ResultReason.recognizedSpeech "bonjour")
      ResultReason.recognizedSpeech "monde" = "bonjour monde" := by
  refine ⟨?_, ?_, ?_, ?_, by decide, by decide⟩
  · intro h t hb ht
    simp [Home.recognizedHandler, ht, appendRecognized, strTruthy, hb]
  · intro h t hb ht
    simp [Home.recognizedHandler, ht, appendRecognized, strTruthy, hb]
  · intro buf t hb ht
    have hne : jsTrim t ≠ "" := by simpa [strTruthy] using ht
    simp [Speech.recognizedHandler, appendRecognized, strTruthy, hne, hb]
  · intro t ht
    have hne : jsTrim t ≠ "" := by simpa [strTruthy] using ht
    simp [Speech.recognizedHandler, appendRecognized, strTruthy, hne]

/-- Witness for C5 at concrete buffers and utterances. -/
theorem claim_C5_append_recognized_witness :
    (Home.recognizedHandler { Home.homeInit with userInput := "bonjour" }
      ResultReason.recognizedSpeech "monde").userInput = "bonjour monde" ∧
    (Home.recognizedHandler Home.homeInit
      ResultReason.recognizedSpeech "monde").userInput = "monde" ∧
    Speech.recognizedHandler "bonjour" ResultReason.recognizedSpeech " monde " =
      "bonjour monde" ∧
    Speech.recognizedHandler "" ResultReason.recognizedSpeech " monde " = "monde" := by
  obtain ⟨h1, h2, h3, h4, _, _⟩ := claim_C5_append_recognized
  refine ⟨?_, h2 _ _ (by decide) (by decide), ?_, ?_⟩
  · have := h1 { Home.homeInit with userInput := "bonjour" } "monde"
      (by decide) (by decide)
    simpa using this
  · have := h3 "bonjour" " monde " (by decide) (by decide)
    simpa using this
  · have := h4 " monde " (by decide)
    simpa using this

/-- C6: stopping speech recognition is idempotent in both clients — a
second stop from the terminal state of a first stop changes nothing,
whatever the outcomes of the underlying stop calls — it is safe when the
recognizer is already gone, the recognizer handle is released on every
outcome including errors, and the terminal state is the non-recording UI
state. -/
theorem claim_C6_stop_idempotent :
    (∀ s o1 o2, Speech.stopSpeechRecognition (Speech.stopSpeechRecognition s o1) o2 =
      Speech.stopSpeechRecognition s o1) ∧
    (∀ s o, (Speech.stopSpeechRecognition s o).isRecording = false ∧
      (Speech.stopSpeechRecognition s o).recognizer = false ∧
      (Speech.stopSpeechRecognition s o).btnRecordingClass = false ∧
      (Speech.stopSpeechRecognition s o).statusText = Speech.clickMsg) ∧
    (∀ s o, s.recognizer = false →
      Speech.stopSpeechRecognition s o =
        { s with
            isRecording := false
            btnRecordingClass := false
            statusText := Speech.clickMsg }) ∧
    (∀ h o1 o2, Home.stopSpeechRecognition (Home.stopSpeechRecognition h o1) o2 =
      Home.stopSpeechRecognition h o1) ∧
    (∀ h o, (Home.stopSpeechRecognition h o).isRecording = false ∧
      (Home.stopSpeechRecognition h o).recognizer = false) ∧
    (∀ h o, h.recognizer = false →
      Home.stopSpeechRecognition h o = { h with isRecording := false }) := by
  refine ⟨?_, ?_, ?_, ?_, ?_, ?_⟩
  · intro s o1 o2
    cases hr : s.recognizer <;> cases o1 <;> cases o2 <;>
      simp [Speech.stopSpeechRecognition, hr]
  · intro s o
    cases hr : s.recognizer <;> cases o <;>
      simp [Speech.stopSpeechRecognition, hr]
  · intro s o hr
    cases o <;> simp [Speech.stopSpeechRecognition, hr]
  · intro h o1 o2
    cases hr : h.recognizer <;> simp [Home.stopSpeechRecognition, hr]
  · intro h o
    cases hr : h.recognizer <;> simp [Home.stopSpeechRecognition, hr]
  · intro h o hr
    simp [Home.stopSpeechRecognition, hr]

/-- Witness for C6 from a recording state, with the underlying stop call
erroring on the first stop. -/
theorem claim_C6_stop_idempotent_witness :
    Speech.stopSpeechRecognition
        (Speech.stopSpeechRecognition
          (Speech.SpeechUiState.mk true true true "Écoute en cours...")
          Speech.StopOutcome.callbackError)
        Speech.StopOutcome.success =
      Speech.stopSpeechRecognition
        (Speech.SpeechUiState.mk true true true "Écoute en cours...")
        Speech.StopOutcome.callbackError ∧
    (Speech.stopSpeechRecognition
      (Speech.SpeechUiState.mk true true true "Écoute en cours...")
      Speech.StopOutcome.throwsSync).recognizer = false ∧
    Speech.stopSpeechRecognition
        (Speech.SpeechUiState.mk false false false "x") Speech.StopOutcome.success =
      { Speech.SpeechUiState.mk false false false "x" with
          isRecording := false
          btnRecordingClass := false
          statusText := Speech.clickMsg } ∧
    Home.stopSpeechRecognition
        (Home.stopSpeechRecognition
          { Home.homeInit with isRecording := true, recognizer := true } true)
        false =
      Home.stopSpeechRecognition
        { Home.homeInit with isRecording := true, recognizer := true } true ∧
    (Home.stopSpeechRecognition
      { Home.homeInit with isRecording := true, recognizer := true } true).recognizer =
      false ∧
    Home.stopSpeechRecognition Home.homeInit false =
      { Home.homeInit with isRecording := false } := by
  obtain ⟨h1, h2, h3, h4, h5, h6⟩ := claim_C6_stop_idempotent
  exact ⟨h1 _ _ _, (h2 _ _).2.1, h3 _ _ (by decide), h4 _ _ _, (h5 _ _).2,
    h6 _ _ (by decide)⟩

end NL2C

namespace NL2C

/-- C7 counterexample: in an environment where the SDK never appears, the
give-up timer fires at the tenth scheduler step (5 seconds in), disabling
the mic control and showing the failure message — but the claim that
"no further polling checks occur" and that the message is "permanent" is
false: the very next steps run two more `checkSdkLoaded` invocations, the
status line is overwritten by the loading message again 0ms/500ms later,
and another poll is still scheduled for t = 6000ms. -/
theorem claim_C7_counterexample :
    (Speech.sdkRun Speech.absent 10).btnDisabled = true ∧
    (Speech.sdkRun Speech.absent 10).disableCount = 1 ∧
    (Speech.sdkRun Speech.absent 10).statusText = Speech.failMsg ∧
    (Speech.sdkRun Speech.absent 12).checkCount =
      (Speech.sdkRun Speech.absent 10).checkCount + 2 ∧
    (Speech.sdkRun Speech.absent 11).statusText = Speech.loadingMsg ∧
    (Speech.sdkRun Speech.absent 12).pollPending = some 6000 := by
  decide

/-- C7 amended: the SDK-presence detection re-checks the factory function
every 500ms and arms a one-shot give-up timer 5 seconds after the first
failed check; when the timer fires it shows a user-visible failure message
and disables the mic control, and the control is disabled exactly once and
never re-enabled — but polling does not stop: a next check stays scheduled
forever (and, as the counterexample shows, the failure message is
overwritten by the loading message at the next check). -/
theorem claim_C7_bounded_give_up_amended :
    (∀ s, (Speech.checkSdkLoaded false s).pollPending = some (s.now + 500)) ∧
    (∀ s, s.timeoutHandleSet = false →
      (Speech.checkSdkLoaded false s).giveUpPending = some (s.now + 5000)) ∧
    (∀ s, (Speech.fireGiveUp s).btnDisabled = true ∧
      (Speech.fireGiveUp s).statusText = Speech.failMsg ∧
      (Speech.fireGiveUp s).disableCount = s.disableCount + 1) ∧
    (∀ n, (Speech.sdkRun Speech.absent n).disableCount ≤ 1) ∧
    (∀ n, 10 ≤ n → (Speech.sdkRun Speech.absent n).btnDisabled = true ∧
      (Speech.sdkRun Speech.absent n).disableCount = 1) ∧
    (∀ n, (Speech.sdkRun Speech.absent n).pollPending ≠ none) := by
  refine ⟨?_, ?_, ?_, ?_, ?_, ?_⟩
  · intro s
    by_cases hts : s.timeoutHandleSet = true <;>
      simp [Speech.checkSdkLoaded, hts]
  · intro s hts
    simp [Speech.checkSdkLoaded, hts]
  · intro s
    exact ⟨rfl, rfl, rfl⟩
  · intro n
    rcases (Speech.absentInv_run n).2.2 with ⟨h0, _⟩ | ⟨h1, _⟩
    · omega
    · omega
  · intro n hn
    obtain ⟨k, hk⟩ := Nat.le.dest hn
    rw [← hk]
    exact sdkRun_disabled_from_ten k
  · intro n
    have h := (Speech.absentInv_run n).1
    intro hc
    rw [hc] at h
    simp at h

/-- Witness for C7-amended at a concrete failing check and at step 10/12
of the never-available run. -/
theorem claim_C7_bounded_give_up_amended_witness :
    (Speech.checkSdkLoaded false Speech.sdkInit).pollPending = some 500 ∧
    (Speech.checkSdkLoaded false Speech.sdkInit).giveUpPending = some 5000 ∧
    ((Speech.fireGiveUp Speech.sdkInit).btnDisabled = true ∧
      (Speech.fireGiveUp Speech.sdkInit).statusText = Speech.failMsg ∧
      (Speech.fireGiveUp Speech.sdkInit).disableCount = Speech.sdkInit.disableCount + 1) ∧
    (Speech.sdkRun Speech.absent 12).disableCount ≤ 1 ∧
    ((Speech.sdkRun Speech.absent 12).btnDisabled = true ∧
      (Speech.sdkRun Speech.absent 12).disableCount = 1) ∧
    (Speech.sdkRun Speech.absent 12).pollPending ≠ none := by
  obtain ⟨h1, h2, h3, h4, h5, h6⟩ := claim_C7_bounded_give_up_amended
  exact ⟨h1 Speech.sdkInit, h2 Speech.sdkInit (by decide), h3 Speech.sdkInit,
    h4 12, h5 12 (by decide), h6 12⟩

/-- C8 counterexample: the mock implementation satisfies the duck-typed
presence probes (`SpeechConfig` is an object whose
`fromAuthorizationToken` is a function), so `checkSdkLoaded` classifies it
as loaded — it sets `sdkLoaded`, shows the ready status and attaches the
mic click handler — refuting the claim that the SDK-presence check
classifies the mock as not loaded. -/
theorem claim_C8_counterexample :
    Speech.sdkDetected Speech.mockGlobals = true ∧
    (Speech.checkSdkLoaded (Speech.sdkDetected Speech.mockGlobals)
      Speech.sdkInit).sdkLoaded = true ∧
    (Speech.checkSdkLoaded (Speech.sdkDetected Speech.mockGlobals)
      Speech.sdkInit).listenerAdded = true := by
  decide

/-- C8 amended: the duck-typed SDK-presence check classifies the mock as
loaded (the sentinel is not consulted there), but the sentinel
`window.FromMock === true` is enforced first inside
`startSpeechRecognition`, which aborts before a recognizer is ever
created, so speech capture never starts against the mock — for the mock
globals concretely, and for every environment carrying the sentinel; in
addition the mock script itself disables the mic control on page load. -/
theorem claim_C8_mock_sentinel_amended :
    Speech.sdkDetected Speech.mockGlobals = true ∧
    (Speech.checkSdkLoaded (Speech.sdkDetected Speech.mockGlobals)
      Speech.sdkInit).sdkLoaded = true ∧
    Speech.startSpeechRecognition Speech.mockGlobals =
      Speech.StartOutcome.mockDetected ∧
    Speech.recognizerCreated Speech.mockGlobals = false ∧
    (∀ g, g.fromMock = true → Speech.recognizerCreated g = false) ∧
    (∀ u, (Speech.mockDomLoaded u).disabled = true) := by
  refine ⟨by decide, by decide, by decide, by decide, ?_, ?_⟩
  · intro g hg
    simp [Speech.recognizerCreated, Speech.startSpeechRecognition, hg]
  · intro u
    rfl

/-- Witness for C8-amended at the mock globals and a concrete mic
control. -/
theorem claim_C8_mock_sentinel_amended_witness :
    Speech.recognizerCreated Speech.mockGlobals = false ∧
    (Speech.mockDomLoaded (Speech.MicControl.mk false "" "")).disabled = true := by
  obtain ⟨_, _, _, _, h5, h6⟩ := claim_C8_mock_sentinel_amended
  exact ⟨h5 Speech.mockGlobals (by decide), h6 (Speech.MicControl.mk false "" "")⟩

/-- C9: `renderGraph` on an empty query only records the error message —
the full-state equation shows no loading state is entered, the renderer is
not invoked (no emit counter moves) and previously rendered content is
untouched; `rerender` re-issues `renderGraph` with the component's
current, i.e. last-used, query; and the HomeView-level retry is a no-op
when no query has ever been set, because the component is then not
mounted. -/
theorem claim_C9_render_empty_and_rerender :
    (∀ s : NeoVis.NeoVisState, s.query = "" →
      NeoVis.renderGraph s = { s with error := some NeoVis.noQueryMsg }) ∧
    (∀ s, NeoVis.rerender s = NeoVis.renderGraph s) ∧
    (∀ h nv, h.currentCypherQuery = none → Home.rerenderGraph h nv = nv) := by
  refine ⟨?_, ?_, ?_⟩
  · intro s hq
    simp [NeoVis.renderGraph, hq]
  · intro s
    rfl
  · intro h nv hq
    simp [Home.rerenderGraph, hq, optStrTruthy]

/-- Witness for C9: an empty query against a state holding previously
rendered content, and a retry on a view that never received a query. -/
theorem claim_C9_render_empty_and_rerender_witness :
    NeoVis.renderGraph
        (NeoVis.NeoVisState.mk "" false none false true (some "MATCH (n) RETURN n") 1 0) =
      { NeoVis.NeoVisState.mk "" false none false true (some "MATCH (n) RETURN n") 1 0 with
          error := some NeoVis.noQueryMsg } ∧
    NeoVis.rerender
        (NeoVis.NeoVisState.mk "MATCH (n) RETURN n" false none true true none 0 0) =
      NeoVis.renderGraph
        (NeoVis.NeoVisState.mk "MATCH (n) RETURN n" false none true true none 0 0) ∧
    Home.rerenderGraph Home.homeInit
        (NeoVis.NeoVisState.mk "MATCH (n) RETURN n" false none true true none 0 0) =
      NeoVis.NeoVisState.mk "MATCH (n) RETURN n" false none true true none 0 0 := by
  obtain ⟨h1, h2, h3⟩ := claim_C9_render_empty_and_rerender
  exact ⟨h1 _ (by decide), h2 _, h3 _ _ (by decide)⟩

/-- C10: a recognized-speech callback whose text is empty (Vue client) or
whitespace-only after trimming (static client) leaves the input buffer and
the whole component state exactly unchanged — no separator space and no
text is appended. -/
theorem claim_C10_empty_recognition_no_change :
    (∀ buf t, jsTrim t = "" →
      Speech.recognizedHandler buf ResultReason.recognizedSpeech t = buf) ∧
    (∀ h, Home.recognizedHandler h ResultReason.recognizedSpeech "" = h) := by
  refine ⟨?_, ?_⟩
  · intro buf t ht
    simp [Speech.recognizedHandler, ht, strTruthy]
  · intro h
    simp [Home.recognizedHandler]

/-- Witness for C10 on a pending typed input and a whitespace-only
utterance. -/
theorem claim_C10_empty_recognition_no_change_witness :
    Speech.recognizedHandler "bonjour" ResultReason.recognizedSpeech "   " = "bonjour" ∧
    Home.recognizedHandler { Home.homeInit with userInput := "bonjour" }
        ResultReason.recognizedSpeech "" =
      { Home.homeInit with userInput := "bonjour" } := by
  obtain ⟨h1, h2⟩ := claim_C10_empty_recognition_no_change
  exact ⟨h1 "bonjour" "   " (by decide), h2 _⟩

end NL2C
